import Mathlib

/-!
Verification of the google-chat notification action (src/main.js).
The card builder, body envelope, sender and entry point are embedded as
pure Lean functions; the HTTP transport and the input store are passed in
explicitly so that the request trace is observable.
-/

/-- The color table from the top of main.js. -/
structure Colors where
  success : String
  failure : String
  other : String
deriving DecidableEq, Repr

def colors : Colors :=
  { success := "#2cbe4e", failure := "#ff0000", other := "#ffc107" }

/-- A value read from the events object literal by JS property lookup:
one of its three own string properties, or a truthy non-string value
inherited from the prototype chain. The only lower-case keys hitting an
inherited property are constructor (the Object function) and proto
(double-underscore proto, the prototype object); every other own key of
the prototype contains an upper-case letter and is unreachable after
toLowerCase. -/
inductive JsEventsValue where
  | str (s : String)
  | inheritedConstructor
  | inheritedProto
deriving DecidableEq, Repr

/-- JS string conversion of a value read from the events object, as used
by template-literal interpolation. -/
def jsEventsValueToString : JsEventsValue → String
  | JsEventsValue.str s => s
  | JsEventsValue.inheritedConstructor => "function Object() \x7b [native code] \x7d"
  | JsEventsValue.inheritedProto => "[object Object]"

/-- The events lookup object: the three own properties map to themselves;
the two all-lower-case inherited prototype keys return their truthy
non-string values; anything else is undefined. -/
def events (s : String) : Option JsEventsValue :=
  if s = "pull_request" then some (JsEventsValue.str "pull_request")
  else if s = "push" then some (JsEventsValue.str "push")
  else if s = "workflow_dispatch" then some (JsEventsValue.str "workflow_dispatch")
  else if s = "constructor" then some JsEventsValue.inheritedConstructor
  else if s = "__proto__" then some JsEventsValue.inheritedProto
  else none

/-- JS toLowerCase: lower-case every character. -/
def jsToLower (s : String) : String :=
  String.mk (s.data.map Char.toLower)

/-- JS `s.substring(0, 1).toUpperCase() + s.substring(1)`: upper-case the
first character, keep the rest unchanged. -/
def capFirst (s : String) : String :=
  String.mk (match s.data with
    | [] => []
    | c :: rest => Char.toUpper c :: rest)

/-- A button with an openLink onClick, as used in decoratedText widgets. -/
structure Button where
  text : String
  url : String
deriving DecidableEq, Repr

/-- A decoratedText widget; missing JS object fields are `none`. -/
structure DecoratedText where
  iconUrl : Option String
  topLabel : Option String
  text : String
  wrapText : Option Bool
  button : Option Button
deriving DecidableEq, Repr

inductive Widget where
  | decoratedText (d : DecoratedText)
  | textParagraph (text : String)
deriving DecidableEq, Repr

/-- A card section. -/
structure CardSection where
  header : Option String
  collapsible : Option Bool
  widgets : List Widget
deriving DecidableEq, Repr

structure CardHeader where
  title : String
  subtitle : String
  imageUrl : String
  imageType : String
deriving DecidableEq, Repr

structure Card where
  header : CardHeader
  sections : List CardSection
deriving DecidableEq, Repr

/-- The argument object of createCard. -/
structure CardInput where
  name : String
  owner : String
  repo : String
  eventName : String
  ref : String
  actor : String
  workflow : String
  sha : String
  number : Nat
  validationId : String
  validationStatus : String
  validationUrl : String
  validationDetails : String
deriving DecidableEq, Repr

def assetBase : String :=
  "https://raw.githubusercontent.com/ciro-maciel/google-chat-github-action/main/assets/"

/-- The event type after the lowercase lookup with fallback to push (the
or-operator keeps any truthy inherited value), converted to its JS string
form. -/
def eventTypeOf (i : CardInput) : String :=
  jsEventsValueToString ((events (jsToLower i.eventName)).getD (JsEventsValue.str "push"))

/-- Shallow embedding of createCard from main.js. -/
def createCard (i : CardInput) : Card :=
  let statusLower := jsToLower i.validationStatus
  let statusName := capFirst i.validationStatus
  let sc :=
    if statusLower = "success" then (colors.success, statusLower)
    else if statusLower = "failure" then (colors.failure, statusLower)
    else (colors.other, "cancelled")
  let statusColor := sc.1
  let statusType := sc.2
  let eventType := (events (jsToLower i.eventName)).getD (JsEventsValue.str "push")
  let eventNameFmt :=
    if eventType = JsEventsValue.str "pull_request" then "Pull Request"
    else if eventType = JsEventsValue.str "push" then "Push"
    else "Workflow Dispatch"
  let eventPath :=
    if eventType = JsEventsValue.str "pull_request" then "/pull/" ++ toString i.number
    else "/commit/" ++ i.sha
  let repoUrl := "https://github.com/" ++ i.owner ++ "/" ++ i.repo
  let eventUrl := repoUrl ++ eventPath
  let checksUrl := repoUrl ++ eventPath ++ "/checks"
  let showNameWidget := 45 ≤ i.name.length
  let nameWidgets : List Widget :=
    if showNameWidget then
      [Widget.decoratedText
        { iconUrl := none, topLabel := some "Name", text := i.name,
          wrapText := some true, button := none }]
    else []
  { header :=
      { title := i.name, subtitle := i.owner ++ "/" ++ i.repo,
        imageUrl := "https://github.githubassets.com/assets/GitHub-Mark-ea2971cee799.png",
        imageType := "CIRCLE" },
    sections :=
      [ { header := none, collapsible := none,
          widgets :=
            [ Widget.decoratedText
                { iconUrl := some (assetBase ++ "status_" ++ statusType ++ ".png"),
                  topLabel := some "Status",
                  text := "<font color=\"" ++ statusColor ++ "\">" ++ statusName ++ "</font>",
                  wrapText := none,
                  button := some { text := "Open Job", url := checksUrl } },
              Widget.decoratedText
                { iconUrl := some (assetBase ++ "event_" ++ jsEventsValueToString eventType ++ ".png"),
                  topLabel := some "Event",
                  text := eventNameFmt,
                  wrapText := none,
                  button := some { text := "Open Event", url := eventUrl } },
              Widget.decoratedText
                { iconUrl := some (assetBase ++ "ref.png"),
                  topLabel := some "Ref", text := i.ref,
                  wrapText := none, button := none },
              Widget.decoratedText
                { iconUrl := some (assetBase ++ "actor.png"),
                  topLabel := some "Actor", text := i.actor,
                  wrapText := none, button := none } ]
            ++ nameWidgets },
        { header := some "Code Standardization", collapsible := some false,
          widgets := [Widget.textParagraph "is coming...🫥🤓"] },
        { header := some "Summary", collapsible := some true,
          widgets :=
            [ Widget.decoratedText
                { iconUrl := some (assetBase ++ "summary.png"),
                  topLabel := some "Name", text := i.validationId,
                  wrapText := none,
                  button := some { text := "Open Details", url := i.validationUrl } },
              Widget.textParagraph i.validationDetails ] } ] }

/-- The card inside the envelope: name field first, then the spread card. -/
structure NamedCard where
  name : String
  header : CardHeader
  sections : List CardSection
deriving DecidableEq, Repr

structure CardV2 where
  cardId : String
  card : NamedCard
deriving DecidableEq, Repr

/-- The delivered request body. -/
structure Body where
  text : String
  cardsV2 : List CardV2
deriving DecidableEq, Repr

/-- Shallow embedding of createBody from main.js. -/
def createBody (name : String) (card : Card) : Body :=
  { text := "",
    cardsV2 := [{ cardId := name,
                  card := { name := name, header := card.header,
                            sections := card.sections } }] }

/-- Ambient context read from github.context inside sendNotification. -/
structure RunContext where
  owner : String
  repo : String
  eventName : String
  sha : String
  ref : String
  actor : String
  workflow : String
  number : Nat
deriving DecidableEq, Repr

/-- The HTTP transport: given url and body, either a success status (axios
resolves only for 2xx) or a thrown error. -/
def Transport : Type := String → Body → Except String Nat

/-- Shallow embedding of sendNotification: builds the card and the body,
performs one post and converts the outcome to a Bool; the second component
is the trace of posts made. -/
def sendNotification (respond : Transport) (ctx : RunContext)
    (name url validationId validationStatus validationUrl validationDetails : String) :
    Bool × List (String × Body) :=
  let card := createCard
    { name := name, owner := ctx.owner, repo := ctx.repo,
      eventName := ctx.eventName, ref := ctx.ref, actor := ctx.actor,
      workflow := ctx.workflow, sha := ctx.sha, number := ctx.number,
      validationId := validationId, validationStatus := validationStatus,
      validationUrl := validationUrl, validationDetails := validationDetails }
  let body := createBody name card
  match respond url body with
  | Except.ok _ => (true, [(url, body)])
  | Except.error _ => (false, [(url, body)])

/-- core.getInput with required true: throws when the input is absent. -/
def getInput (inputs : String → Option String) (nm : String) :
    Except String String :=
  match inputs nm with
  | some v => Except.ok v
  | none => Except.error ("Input required and not supplied: " ++ nm)

inductive RunOutcome where
  | ok (debugMsg : String)
  | failed (msg : String)
deriving DecidableEq, Repr

/-- Shallow embedding of run: reads the six required inputs (a thrown
getInput error is caught by the try and reported via setFailed), calls
sendNotification, and reports its Bool. The trace of posts is returned. -/
def run (inputs : String → Option String) (respond : Transport)
    (ctx : RunContext) : RunOutcome × List (String × Body) :=
  match getInput inputs "name" with
  | Except.error e =>
      (RunOutcome.failed ("error sending notification to google chat: " ++ e), [])
  | Except.ok name =>
  match getInput inputs "url" with
  | Except.error e =>
      (RunOutcome.failed ("error sending notification to google chat: " ++ e), [])
  | Except.ok url =>
  match getInput inputs "validationId" with
  | Except.error e =>
      (RunOutcome.failed ("error sending notification to google chat: " ++ e), [])
  | Except.ok validationId =>
  match getInput inputs "validationStatus" with
  | Except.error e =>
      (RunOutcome.failed ("error sending notification to google chat: " ++ e), [])
  | Except.ok validationStatus =>
  match getInput inputs "validationUrl" with
  | Except.error e =>
      (RunOutcome.failed ("error sending notification to google chat: " ++ e), [])
  | Except.ok validationUrl =>
  match getInput inputs "validationDetails" with
  | Except.error e =>
      (RunOutcome.failed ("error sending notification to google chat: " ++ e), [])
  | Except.ok validationDetails =>
  let r := sendNotification respond ctx name url validationId validationStatus
    validationUrl validationDetails
  if r.1 then (RunOutcome.ok ("Sent notification: " ++ name), r.2)
  else (RunOutcome.failed "error sending notification to google chat", r.2)

/-! Accessors used to state the claims. -/

/-- The widgets of the first section. -/
def firstWidgets (c : Card) : List Widget :=
  match c.sections with
  | s :: _ => s.widgets
  | [] => []

/-- The rendered text of the status widget (first widget, first section). -/
def statusText (c : Card) : String :=
  match firstWidgets c with
  | Widget.decoratedText d :: _ => d.text
  | _ => ""

/-- The icon url of the status widget. -/
def statusIcon (c : Card) : String :=
  match firstWidgets c with
  | Widget.decoratedText d :: _ => d.iconUrl.getD ""
  | _ => ""

/-- The url of the Open Job button on the status widget (the checks url). -/
def checksUrlOf (c : Card) : String :=
  match firstWidgets c with
  | Widget.decoratedText d :: _ => (d.button.getD { text := "", url := "" }).url
  | _ => ""

/-- The rendered text of the event widget (second widget, first section). -/
def eventText (c : Card) : String :=
  match firstWidgets c with
  | _ :: Widget.decoratedText d :: _ => d.text
  | _ => ""

/-- The url of the Open Event button on the event widget. -/
def eventUrlOf (c : Card) : String :=
  match firstWidgets c with
  | _ :: Widget.decoratedText d :: _ => (d.button.getD { text := "", url := "" }).url
  | _ => ""

/-- Whether the first section carries the extra Name widget. -/
def hasNameWidget (c : Card) : Bool :=
  (firstWidgets c).any fun w =>
    match w with
    | Widget.decoratedText d => d.topLabel = some "Name"
    | _ => false

/-- A baseline concrete input for witnesses and counterexamples. -/
def sampleInput : CardInput :=
  { name := "ci", owner := "ciro-maciel", repo := "demo",
    eventName := "push", ref := "refs/heads/main", actor := "octo",
    workflow := "ci", sha := "abc123", number := 7,
    validationId := "v1", validationStatus := "success",
    validationUrl := "https://example.com/v1", validationDetails := "ok" }

/-! Claim theorems. -/

/-- Claim C9: createCard is a pure function: equal inputs give equal cards. -/
theorem c9_createCard_deterministic (i j : CardInput) (h : i = j) :
    createCard i = createCard j := by
  rw [h]

/-- Witness for C9 at a concrete input. -/
theorem c9_createCard_deterministic_witness :
    createCard sampleInput = createCard sampleInput :=
  c9_createCard_deterministic sampleInput sampleInput rfl

/-- Claim C5: the delivered request body is the envelope with empty text,
the name as both cardId and the card name field, and the card contents. -/
theorem c5_createBody_envelope (name : String) (c : Card) :
    createBody name c =
      { text := "",
        cardsV2 := [{ cardId := name,
                      card := { name := name, header := c.header,
                                sections := c.sections } }] } :=
  rfl

/-- Counterexample to claim C1: with validationStatus unknown the status
widget text renders the word Unknown (first character upper-cased input),
not the literal word Cancelled, so the claimed label forcing fails. -/
theorem c1_label_counterexample :
    statusText (createCard { sampleInput with validationStatus := "unknown" })
      = "<font color=\"#ffc107\">Unknown</font>" ∧
    statusText (createCard { sampleInput with validationStatus := "unknown" })
      ≠ "<font color=\"#ffc107\">Cancelled</font>" := by
  constructor
  · decide
  · decide

/-- Claim C1 (amended): for every validationStatus whose lower-cased value
is neither success nor failure, the status widget uses the amber color and
the cancelled status icon, while the rendered label is the raw input with
its first character upper-cased (not the literal word Cancelled). -/
theorem c1_other_status_amber (i : CardInput)
    (h1 : jsToLower i.validationStatus ≠ "success")
    (h2 : jsToLower i.validationStatus ≠ "failure") :
    statusText (createCard i) =
      "<font color=\"" ++ colors.other ++ "\">" ++ capFirst i.validationStatus ++ "</font>" ∧
    statusIcon (createCard i) = assetBase ++ "status_" ++ "cancelled" ++ ".png" := by
  simp [createCard, statusText, statusIcon, firstWidgets, h1, h2]

/-- Witness for C1 at validationStatus CANCELLED. -/
theorem c1_other_status_amber_witness :
    statusText (createCard { sampleInput with validationStatus := "CANCELLED" }) =
      "<font color=\"" ++ colors.other ++ "\">" ++
        capFirst "CANCELLED" ++ "</font>" ∧
    statusIcon (createCard { sampleInput with validationStatus := "CANCELLED" }) =
      assetBase ++ "status_" ++ "cancelled" ++ ".png" :=
  c1_other_status_amber { sampleInput with validationStatus := "CANCELLED" }
    (by decide) (by decide)

/-- Counterexample to claim C2: with eventName weird_event the event url
does fall back to the commit pattern, but the rendered event label is
Push, not Workflow Dispatch, so the claimed label fallback fails. -/
theorem c2_fallback_counterexample :
    eventUrlOf (createCard { sampleInput with eventName := "weird_event" })
      = "https://github.com/ciro-maciel/demo/commit/abc123" ∧
    eventText (createCard { sampleInput with eventName := "weird_event" })
      = "Push" ∧
    eventText (createCard { sampleInput with eventName := "weird_event" })
      ≠ "Workflow Dispatch" := by
  refine ⟨by decide, by decide, by decide⟩

/-- Claim C2 (amended): for every eventName not recognized, case
insensitively, as pull_request, push or workflow_dispatch, the event url
always uses the commit pattern; the rendered event label is Workflow
Dispatch exactly when the lower-cased name is one of the two all-lower-case
prototype keys, constructor and double-underscore proto, whose inherited
truthy values defeat the or-fallback, and is Push for every other
unrecognized name, including the empty string and weird_event. -/
theorem c2_unrecognized_event (i : CardInput)
    (h1 : jsToLower i.eventName ≠ "pull_request")
    (h2 : jsToLower i.eventName ≠ "push")
    (h3 : jsToLower i.eventName ≠ "workflow_dispatch") :
    eventUrlOf (createCard i) =
      "https://github.com/" ++ i.owner ++ "/" ++ i.repo ++ ("/commit/" ++ i.sha) ∧
    eventText (createCard i) =
      (if jsToLower i.eventName = "constructor" ∨ jsToLower i.eventName = "__proto__"
       then "Workflow Dispatch" else "Push") := by
  by_cases hc : jsToLower i.eventName = "constructor"
  · simp [createCard, eventText, eventUrlOf, firstWidgets, events,
      jsEventsValueToString, h1, h2, h3, hc]
  · by_cases hp : jsToLower i.eventName = "__proto__"
    · simp [createCard, eventText, eventUrlOf, firstWidgets, events,
        jsEventsValueToString, h1, h2, h3, hc, hp]
    · simp [createCard, eventText, eventUrlOf, firstWidgets, events,
        jsEventsValueToString, h1, h2, h3, hc, hp]

/-- Witness for C2 at the unrecognized names weird_event (label Push) and
CONSTRUCTOR (inherited prototype value, label Workflow Dispatch). -/
theorem c2_unrecognized_event_witness :
    eventText (createCard { sampleInput with eventName := "weird_event" }) =
      (if jsToLower "weird_event" = "constructor" ∨ jsToLower "weird_event" = "__proto__"
       then "Workflow Dispatch" else "Push") ∧
    eventText (createCard { sampleInput with eventName := "CONSTRUCTOR" }) =
      (if jsToLower "CONSTRUCTOR" = "constructor" ∨ jsToLower "CONSTRUCTOR" = "__proto__"
       then "Workflow Dispatch" else "Push") :=
  ⟨(c2_unrecognized_event { sampleInput with eventName := "weird_event" }
      (by decide) (by decide) (by decide)).2,
   (c2_unrecognized_event { sampleInput with eventName := "CONSTRUCTOR" }
      (by decide) (by decide) (by decide)).2⟩

/-- Claim C3: when the lower-cased validationStatus is success the status
widget uses the green color, when failure the red color, and in both cases
the rendered label is the raw input with only its first character
upper-cased; in particular success renders Success and failure renders
Failure. -/
theorem c3_success_failure_status (i : CardInput) :
    (jsToLower i.validationStatus = "success" →
      statusText (createCard i) =
        "<font color=\"" ++ colors.success ++ "\">" ++ capFirst i.validationStatus ++ "</font>") ∧
    (jsToLower i.validationStatus = "failure" →
      statusText (createCard i) =
        "<font color=\"" ++ colors.failure ++ "\">" ++ capFirst i.validationStatus ++ "</font>") ∧
    capFirst "success" = "Success" ∧ capFirst "failure" = "Failure" := by
  refine ⟨fun h1 => ?_, fun h2 => ?_, by decide, by decide⟩
  · simp [createCard, statusText, firstWidgets, h1]
  · simp [createCard, statusText, firstWidgets, h2]

/-- Witness for C3 at success and failure inputs. -/
theorem c3_success_failure_status_witness :
    statusText (createCard sampleInput) =
      "<font color=\"" ++ colors.success ++ "\">" ++ capFirst "success" ++ "</font>" ∧
    statusText (createCard { sampleInput with validationStatus := "failure" }) =
      "<font color=\"" ++ colors.failure ++ "\">" ++ capFirst "failure" ++ "</font>" :=
  ⟨(c3_success_failure_status sampleInput).1 (by decide),
   (c3_success_failure_status { sampleInput with validationStatus := "failure" }).2.1 (by decide)⟩

/-- The extra Name widget appended for long display names. -/
def nameWidgetFor (name : String) : Widget :=
  Widget.decoratedText
    { iconUrl := none, topLabel := some "Name", text := name,
      wrapText := some true, button := none }

/-- Claim C4: the first section carries the extra Name widget exactly when
the name length is at least 45; below that the widget is absent entirely,
the section keeping only its four base widgets. -/
theorem c4_name_widget_boundary (i : CardInput) :
    (hasNameWidget (createCard i) = true ↔ 45 ≤ i.name.length) ∧
    ((firstWidgets (createCard i)).length = if 45 ≤ i.name.length then 5 else 4) ∧
    (45 ≤ i.name.length →
      (firstWidgets (createCard i)).get? 4 = some (nameWidgetFor i.name)) := by
  by_cases h : 45 ≤ i.name.length <;>
    simp [createCard, hasNameWidget, firstWidgets, nameWidgetFor, h]

/-- Witness for C4 at names of length 44 and 45. -/
theorem c4_name_widget_boundary_witness :
    (firstWidgets (createCard
        { sampleInput with name := String.mk (List.replicate 45 'a') })).get? 4 =
      some (nameWidgetFor (String.mk (List.replicate 45 'a'))) ∧
    (hasNameWidget (createCard
        { sampleInput with name := String.mk (List.replicate 44 'a') }) = true ↔
      45 ≤ (String.mk (List.replicate 44 'a')).length) :=
  ⟨(c4_name_widget_boundary
      { sampleInput with name := String.mk (List.replicate 45 'a') }).2.2 (by decide),
   (c4_name_widget_boundary
      { sampleInput with name := String.mk (List.replicate 44 'a') }).1⟩

/-- Claim C8: the checks url is always the event url suffixed with /checks,
and the event url is the repository url https-github-com/owner/repo
followed by /pull/number for pull_request events and /commit/sha
otherwise. -/
theorem c8_url_construction (i : CardInput) :
    checksUrlOf (createCard i) = eventUrlOf (createCard i) ++ "/checks" ∧
    eventUrlOf (createCard i) =
      "https://github.com/" ++ i.owner ++ "/" ++ i.repo ++
        (if eventTypeOf i = "pull_request" then "/pull/" ++ toString i.number
         else "/commit/" ++ i.sha) := by
  cases hv : (events (jsToLower i.eventName)).getD (JsEventsValue.str "push") with
  | str s =>
      by_cases hs : s = "pull_request" <;>
        simp [createCard, checksUrlOf, eventUrlOf, firstWidgets, eventTypeOf,
          jsEventsValueToString, hv, hs]
  | inheritedConstructor =>
      simp [createCard, checksUrlOf, eventUrlOf, firstWidgets, eventTypeOf,
        jsEventsValueToString, hv]
  | inheritedProto =>
      simp [createCard, checksUrlOf, eventUrlOf, firstWidgets, eventTypeOf,
        jsEventsValueToString, hv]

/-- Claim C10: the status icon url is always one of exactly three fixed
constants; every input not mapping to success or failure gets the
cancelled icon. -/
theorem c10_status_icon_closed (i : CardInput) :
    statusIcon (createCard i) =
      "https://raw.githubusercontent.com/ciro-maciel/google-chat-github-action/main/assets/status_success.png" ∨
    statusIcon (createCard i) =
      "https://raw.githubusercontent.com/ciro-maciel/google-chat-github-action/main/assets/status_failure.png" ∨
    statusIcon (createCard i) =
      "https://raw.githubusercontent.com/ciro-maciel/google-chat-github-action/main/assets/status_cancelled.png" := by
  by_cases h1 : jsToLower i.validationStatus = "success"
  · left
    simp [createCard, statusIcon, firstWidgets, h1, assetBase]
  · by_cases h2 : jsToLower i.validationStatus = "failure"
    · right; left
      simp [createCard, statusIcon, firstWidgets, h1, h2, assetBase]
    · right; right
      simp [createCard, statusIcon, firstWidgets, h1, h2, assetBase]

/-- The body sendNotification builds from its inputs and the context. -/
def builtBody (ctx : RunContext) (name vId vS vU vD : String) : Body :=
  createBody name (createCard
    { name := name, owner := ctx.owner, repo := ctx.repo,
      eventName := ctx.eventName, ref := ctx.ref, actor := ctx.actor,
      workflow := ctx.workflow, sha := ctx.sha, number := ctx.number,
      validationId := vId, validationStatus := vS,
      validationUrl := vU, validationDetails := vD })

/-- Claim C6: sendNotification makes exactly one post per invocation, and
returns true exactly when the transport reports success; on any thrown
transport error it returns false. Its result is total, so no exception
escapes to the caller. -/
theorem c6_single_post (respond : Transport) (ctx : RunContext)
    (name url vId vS vU vD : String) :
    (sendNotification respond ctx name url vId vS vU vD).2 =
      [(url, builtBody ctx name vId vS vU vD)] ∧
    ((sendNotification respond ctx name url vId vS vU vD).1 = true ↔
      ∃ s, respond url (builtBody ctx name vId vS vU vD) = Except.ok s) := by
  cases hr : respond url (builtBody ctx name vId vS vU vD) <;>
    simp [sendNotification, builtBody] at hr ⊢ <;>
    simp [hr]

/-- A concrete input store with the name input absent. -/
def missingName : String → Option String :=
  fun nm => if nm = "name" then none else some "x"

def okTransport : Transport := fun _ _ => Except.ok 200

def sampleCtx : RunContext :=
  { owner := "ciro-maciel", repo := "demo", eventName := "push",
    sha := "abc123", ref := "refs/heads/main", actor := "octo",
    workflow := "ci", number := 7 }

/-- Claim C7: if any of the six required inputs is absent, run fails with
a reported error and the post trace is empty: no network call is made and
no exception escapes. -/
theorem c7_missing_input (inputs : String → Option String)
    (respond : Transport) (ctx : RunContext)
    (h : inputs "name" = none ∨ inputs "url" = none ∨
      inputs "validationId" = none ∨ inputs "validationStatus" = none ∨
      inputs "validationUrl" = none ∨ inputs "validationDetails" = none) :
    (run inputs respond ctx).2 = [] ∧
    ∃ m, (run inputs respond ctx).1 = RunOutcome.failed m := by
  cases hn : inputs "name" <;> cases hu : inputs "url" <;>
    cases h1 : inputs "validationId" <;> cases h2 : inputs "validationStatus" <;>
    cases h3 : inputs "validationUrl" <;> cases h4 : inputs "validationDetails" <;>
    simp_all [run, getInput]

/-- Witness for C7: the name input absent, every other input present. -/
theorem c7_missing_input_witness :
    (run missingName okTransport sampleCtx).2 = [] ∧
    ∃ m, (run missingName okTransport sampleCtx).1 = RunOutcome.failed m :=
  c7_missing_input missingName okTransport sampleCtx (Or.inl (by decide))
